import Mathlib

/-!
Shallow embedding of the goodreads-to-skylight importer (import.py).

JSON-like values model the Python objects flowing through the script
(parsed HTTP response bodies, the record payload, CSV rows are a fixed
structure of strings).  Fallible Python code is modelled with
`Except Unit`: `Except.error ()` marks an uncaught Python exception.
Network traffic is modelled by an oracle (`Net`) mapping each request to
the response `safe_request` would deliver (`none` = transport failure or
HTTP error, i.e. `safe_request` returned `None`), and the row-processing
loop is instrumented to record the ordered list of network calls and
report rows it produces.
-/

/-- Python/JSON values as seen by the script. -/
inductive Json where
  | null
  | bool (b : Bool)
  | num (n : Int)
  | str (s : String)
  | arr (xs : List Json)
  | obj (fields : List (String × Json))

/-- Python truthiness of a JSON-like value. -/
def Json.truthy : Json → Bool
  | Json.null => false
  | Json.bool b => b
  | Json.num n => n != 0
  | Json.str s => s != ""
  | Json.arr xs => !xs.isEmpty
  | Json.obj fs => !fs.isEmpty

/-- Python `x == 0` on a JSON value (int 0 and False compare equal to 0). -/
def jsonEqZero : Json → Bool
  | Json.num n => n == 0
  | Json.bool b => b == false
  | _ => false

/-- Lookup in an object field list, `None` (null) when the key is absent:
Python `dict.get(key)`. -/
def jLookup : List (String × Json) → String → Json
  | [], _ => Json.null
  | (k, v) :: rest, s => if k = s then v else jLookup rest s

/-- Python `obj.get(key)` when `obj` is expected to be a dict; raises
(`AttributeError`) on any non-dict value. -/
def pyGet (j : Json) (k : String) : Except Unit Json :=
  match j with
  | Json.obj fs => Except.ok (jLookup fs k)
  | _ => Except.error ()

/-- A step of a `safe_get` path: a string key or an integer index. -/
inductive Key where
  | str (s : String)
  | int (i : Int)

/-- Python `dict.get(key)` with an arbitrary key kind: a non-string key is
simply absent from a string-keyed dict. -/
def dictGet (fs : List (String × Json)) : Key → Json
  | Key.str s => jLookup fs s
  | Key.int _ => Json.null

/-- The guarded list access of `safe_get`: `key < len(obj)` then `obj[key]`.
`Except.ok none` means the guard failed (the Python code returns `None`);
`Except.error` is the `IndexError` raised by a negative index below
`-len(obj)` (the guard `key < len(obj)` lets every negative index through). -/
def pyListGet (xs : List Json) (i : Int) : Except Unit (Option Json) :=
  if i < (xs.length : Int) then
    if 0 ≤ i then Except.ok (some (xs.getD i.toNat Json.null))
    else if 0 ≤ (xs.length : Int) + i then
      Except.ok (some (xs.getD ((xs.length : Int) + i).toNat Json.null))
    else Except.error ()
  else Except.ok none

/-- `safe_get(obj, *keys)` from import.py.  `Except.error ()` marks the
uncaught Python exceptions: `TypeError` from comparing a string key with
`len(obj)` when the current value is a list, and `IndexError` from a
negative index below `-len(obj)`. -/
def safe_get : Json → List Key → Except Unit Json
  | v, [] => Except.ok v
  | Json.obj fs, k :: rest => safe_get (dictGet fs k) rest
  | Json.arr xs, Key.int i :: rest =>
    match pyListGet xs i with
    | Except.error _ => Except.error ()
    | Except.ok none => Except.ok Json.null
    | Except.ok (some v) => safe_get v rest
  | Json.arr _, Key.str _ :: _ => Except.error ()
  | _, _ :: _ => Except.ok Json.null

/-- The traversals on which `safe_get` raises: a string key meeting a list
value (`TypeError`), a negative index below `-len` (`IndexError`), or a
deeper step doing either. -/
inductive RaisesAt : Json → List Key → Prop where
  | strOnArr (xs : List Json) (s : String) (rest : List Key) :
      RaisesAt (Json.arr xs) (Key.str s :: rest)
  | negIdx (xs : List Json) (i : Int) (rest : List Key)
      (h : (xs.length : Int) + i < 0) :
      RaisesAt (Json.arr xs) (Key.int i :: rest)
  | objStep (fs : List (String × Json)) (k : Key) (rest : List Key)
      (h : RaisesAt (dictGet fs k) rest) :
      RaisesAt (Json.obj fs) (k :: rest)
  | arrStep (xs : List Json) (i : Int) (v : Json) (rest : List Key)
      (hv : pyListGet xs i = Except.ok (some v)) (h : RaisesAt v rest) :
      RaisesAt (Json.arr xs) (Key.int i :: rest)

/-! ## String helpers (Python string methods used by the script) -/

/-- Python `str.lstrip(chars)`: drop leading characters belonging to the set. -/
def lstripChars (cs : List Char) : List Char → List Char
  | [] => []
  | c :: rest => if c ∈ cs then lstripChars cs rest else c :: rest

/-- `row[isbn_key].lstrip('="').rstrip('"')` from `retrieve_key`. -/
def stripIsbn (s : String) : String :=
  String.mk ((lstripChars ['"'] (lstripChars ['"', '='] s.data).reverse).reverse)

/-- Python `s.split(c)` for a one-character separator (no maxsplit):
always returns at least one segment. -/
def splitChar (c : Char) : List Char → List (List Char)
  | [] => [[]]
  | x :: rest =>
    let r := splitChar c rest
    if x = c then [] :: r
    else (x :: r.headD []) :: r.tail

/-- Python whitespace for `str.strip()`. -/
def isPySpace (c : Char) : Bool :=
  c = ' ' ∨ c = '\t' ∨ c = '\n' ∨ c = '\r' ∨ c = '\x0b' ∨ c = '\x0c'

/-- Python `str.strip()`. -/
def stripWs (l : List Char) : List Char :=
  ((l.dropWhile isPySpace).reverse.dropWhile isPySpace).reverse

/-- Python `s.replace(a, b)` for one-character arguments. -/
def replaceChar (a b : Char) (l : List Char) : List Char :=
  l.map fun c => if c = a then b else c

/-- `key.split("/")[-1]`. -/
def lastSeg (s : String) : String :=
  String.mk ((splitChar '/' s.data).getLastD [])

/-- One left-to-right pass implementing
`re.sub(r'[\[\(].*?[\]\)]', '', title)`: the non-greedy pattern removes,
for each unconsumed opening bracket or parenthesis, everything up to the
nearest closing bracket or parenthesis on the same line.  The second
argument buffers (reversed) the characters of a pending match whose
closer has not yet been found; if no closer arrives before a newline or
the end of the string, the buffered characters stand unchanged. -/
def rbAux : List Char → Option (List Char) → List Char
  | [], none => []
  | [], some buf => buf.reverse
  | c :: rest, none =>
    if c = '(' ∨ c = '[' then rbAux rest (some [c])
    else c :: rbAux rest none
  | c :: rest, some buf =>
    if c = ')' ∨ c = ']' then rbAux rest none
    else if c = '\n' then buf.reverse ++ '\n' :: rbAux rest none
    else rbAux rest (some (c :: buf))

/-- `re.sub(r'[\[\(].*?[\]\)]', '', ·)` — the bracket removal applied to
the title before the colon split. -/
def removeBrackets (l : List Char) : List Char := rbAux l none

/-- Value of a digit string, most significant first. -/
def digitsVal (l : List Char) : Nat :=
  l.foldl (fun acc c => acc * 10 + (c.toNat - '0'.toNat)) 0

/-- Python `int(s)` on a string: optional surrounding whitespace, optional
sign, a non-empty run of digits; anything else raises `ValueError`
(modelled as `Except.error ()`). -/
def pyIntParse (s : String) : Except Unit Int :=
  match stripWs s.data with
  | '+' :: ds =>
    if ds ≠ [] ∧ ds.all Char.isDigit then Except.ok (digitsVal ds : Int)
    else Except.error ()
  | '-' :: ds =>
    if ds ≠ [] ∧ ds.all Char.isDigit then Except.ok (-(digitsVal ds : Int))
    else Except.error ()
  | ds =>
    if ds ≠ [] ∧ ds.all Char.isDigit then Except.ok (digitsVal ds : Int)
    else Except.error ()

/-! ## Data model: rows, network oracle, instrumentation -/

/-- One CSV row of the GoodReads export (the columns the script reads). -/
structure Row where
  bookId : String
  title : String
  author : String
  isbn13 : String
  isbn : String
  myRating : String
  myReview : String
  publisher : String
  yearPublished : String
  origPubYear : String
  dateRead : String
  dateAdded : String
  readCount : String

/-- A network request issued by the row loop. -/
inductive Call where
  | isbnLookup (isbn : String)
  | search (params : List (String × String))
  | createRecord (payload : Json)

/-- Network oracle: what `safe_request` delivers for each request.
`none` is a transport failure or HTTP error (caught by `safe_request`,
which then returns `None`). -/
structure Net where
  isbnResp : String → Option Json
  searchResp : List (String × String) → Option Json
  createResp : Json → Option Json

/-- Observable events of the row loop: a network call, or a row appended
to the report with its Import Result annotation. -/
inductive Event where
  | call (c : Call)
  | report (row : Row) (result : String)

/-- `valid_read_count` from import.py. -/
def valid_read_count (count : String) : Bool :=
  if count = "0" ∨ count = "" then false
  else (pyIntParse count).isOk

/-- The rating transform of `create_record`:
`rating = int(row['My Rating'])*2`, replaced by 1 when below 1. -/
def storedRating (r : Int) : Int :=
  if r * 2 < 1 then 1 else r * 2

/-- The finish timestamp of `create_record`: prefer Date Read, else Date
Added (Python `or`), else the current timestamp; a date is rewritten by
`finish_date.replace("/", "-") + "T00:00:00.000Z"`. -/
def finishValue (row : Row) (timestamp : String) : String :=
  let fd := if row.dateRead ≠ "" then row.dateRead else row.dateAdded
  if fd = "" then timestamp
  else String.mk (replaceChar '/' '-' fd.data) ++ "T00:00:00.000Z"

/-- The record dict literal of `create_record`. -/
def mkRecord (row : Row) (openLibKey : String) (timestamp : String)
    (rating : Int) (finish : String) (readCount : Int) : Json :=
  Json.obj [
    ("$type", Json.str "my.skylights.rel"),
    ("item", Json.obj [("ref", Json.str "open-library"),
                       ("value", Json.str openLibKey)]),
    ("note", Json.obj [("value", Json.str row.myReview),
                       ("createdAt", Json.str timestamp),
                       ("updatedAt", Json.str timestamp)]),
    ("rating", Json.obj [("value", Json.num rating),
                         ("createdAt", Json.str timestamp)]),
    ("finishedAt", Json.arr (List.replicate readCount.toNat (Json.str finish)))
  ]

/-- Lines 127-149 of import.py: parse the rating (uncaught `ValueError` on
a non-integer My Rating), compute the finish timestamp, parse the read
count, and build the record. -/
def recordPayload (row : Row) (openLibKey : String) (timestamp : String) :
    Except Unit Json :=
  match pyIntParse row.myRating with
  | Except.error e => Except.error e
  | Except.ok r =>
    match pyIntParse row.readCount with
    | Except.error e => Except.error e
    | Except.ok rc =>
      Except.ok (mkRecord row openLibKey timestamp (storedRating r)
        (finishValue row timestamp) rc)

/-- `create_record` from import.py, instrumented with the calls it makes.
It returns no status: the only non-exception results are the call list.
`session.get('accessJwt')` raises on a non-dict session; after a
successful POST, `res.get('uri').replace(...)` raises when `uri` is not a
string. -/
def create_record (net : Net) (session : Json) (did : String) (row : Row)
    (openLibKey : String) (timestamp : String) : Except Unit (List Call) :=
  match recordPayload row openLibKey timestamp with
  | Except.error e => Except.error e
  | Except.ok record =>
    let payload := Json.obj [("repo", Json.str did),
      ("collection", Json.str "my.skylights.rel"), ("record", record)]
    match pyGet session "accessJwt" with
    | Except.error e => Except.error e
    | Except.ok _ =>
      match net.createResp payload with
      | none => Except.ok [Call.createRecord payload]
      | some res =>
        if res.truthy = false then Except.ok [Call.createRecord payload]
        else
          match pyGet res "uri" with
          | Except.error e => Except.error e
          | Except.ok (Json.str _) => Except.ok [Call.createRecord payload]
          | Except.ok _ => Except.error ()

/-! ## Catalog resolution (`retrieve_key`) -/

/-- Segments of the cleaned title:
`re.sub(r'[\[\(].*?[\]\)]', '', row['Title']).split(':')`. -/
def titleParts (title : String) : List (List Char) :=
  splitChar ':' (removeBrackets title.data)

/-- `title[0].strip()` — the query title. -/
def queryTitle (title : String) : String :=
  String.mk (stripWs ((titleParts title).headD []))

/-- `title[1].strip() if len(title) > 1 else ''` — the query subtitle. -/
def querySubtitle (title : String) : String :=
  match titleParts title with
  | _ :: second :: _ => String.mk (stripWs second)
  | _ => ""

/-- The strict search parameters (dict insertion order), with falsy
(empty-string) values filtered out. -/
def strictParams (row : Row) : List (String × String) :=
  ([("title", queryTitle row.title),
    ("subtitle", querySubtitle row.title),
    ("author", row.author),
    ("id_goodreads", row.bookId),
    ("publisher", row.publisher),
    ("publish_year", row.yearPublished),
    ("first_publish_year", row.origPubYear),
    ("q", "language:eng"),
    ("fields", "key,editions,editions.key")] : List (String × String)).filter
    fun p => p.2 != ""

/-- The loose fallback parameters: the strict ones restricted to
title, author, q, fields. -/
def looseParams (row : Row) : List (String × String) :=
  (strictParams row).filter fun p =>
    (["title", "author", "q", "fields"] : List String).contains p.1

/-- `not res or (res.get('num_found') == 0)` — whether a search response
counts as failed; `res.get` raises on a truthy non-dict body. -/
def searchFailed (res : Option Json) : Except Unit Bool :=
  match res with
  | none => Except.ok true
  | some r =>
    if r.truthy = false then Except.ok true
    else
      match pyGet r "num_found" with
      | Except.error e => Except.error e
      | Except.ok nf => Except.ok (jsonEqZero nf)

/-- The nested path of the edition key in a search response. -/
def docsPath : List Key :=
  [Key.str "docs", Key.int 0, Key.str "editions", Key.str "docs",
   Key.int 0, Key.str "key"]

/-- `safe_get(res, 'docs', 0, 'editions', 'docs', 0, 'key')` followed by
`key.split("/")[-1] if isinstance(key, str) else None`. -/
def extractKey (r : Json) : Except Unit (Option String) :=
  match safe_get r docsPath with
  | Except.error e => Except.error e
  | Except.ok (Json.str s) => Except.ok (some (lastSeg s))
  | Except.ok _ => Except.ok none

/-- The search half of `retrieve_key`: strict query, then on zero/absent
results the loose retry, then key extraction from the first successful
response. -/
def searchPhase (net : Net) (row : Row) :
    Except Unit (Option String × List Call) :=
  match searchFailed (net.searchResp (strictParams row)) with
  | Except.error e => Except.error e
  | Except.ok false =>
    match extractKey ((net.searchResp (strictParams row)).getD Json.null) with
    | Except.error e => Except.error e
    | Except.ok k => Except.ok (k, [Call.search (strictParams row)])
  | Except.ok true =>
    match searchFailed (net.searchResp (looseParams row)) with
    | Except.error e => Except.error e
    | Except.ok true =>
      Except.ok (none, [Call.search (strictParams row),
                        Call.search (looseParams row)])
    | Except.ok false =>
      match extractKey ((net.searchResp (looseParams row)).getD Json.null) with
      | Except.error e => Except.error e
      | Except.ok k =>
        Except.ok (k, [Call.search (strictParams row),
                       Call.search (looseParams row)])

/-- Result of one ISBN attempt of the loop
`for isbn_key in ['ISBN13', 'ISBN']`. -/
inductive IsbnStep where
  | next
  | done (key : Option String)

/-- One iteration of the ISBN loop: skip an empty (stripped) ISBN without
a request; on a response carrying a truthy `key`, finish with the last
path segment when it is a string and with `None` otherwise; on no
response or a falsy key, fall through to the next strategy. -/
def tryIsbn (net : Net) (raw : String) : Except Unit (IsbnStep × List Call) :=
  let isbn := stripIsbn raw
  if isbn = "" then Except.ok (IsbnStep.next, [])
  else
    match net.isbnResp isbn with
    | none => Except.ok (IsbnStep.next, [Call.isbnLookup isbn])
    | some res =>
      if res.truthy = false then Except.ok (IsbnStep.next, [Call.isbnLookup isbn])
      else
        match pyGet res "key" with
        | Except.error e => Except.error e
        | Except.ok key =>
          if key.truthy = false then
            Except.ok (IsbnStep.next, [Call.isbnLookup isbn])
          else
            match key with
            | Json.str s =>
              Except.ok (IsbnStep.done (some (lastSeg s)), [Call.isbnLookup isbn])
            | _ => Except.ok (IsbnStep.done none, [Call.isbnLookup isbn])

/-- `retrieve_key` from import.py: ISBN13, then ISBN, then the two-tier
search, instrumented with the ordered list of requests issued. -/
def retrieve_key (net : Net) (row : Row) :
    Except Unit (Option String × List Call) :=
  match tryIsbn net row.isbn13 with
  | Except.error e => Except.error e
  | Except.ok (IsbnStep.done k, c1) => Except.ok (k, c1)
  | Except.ok (IsbnStep.next, c1) =>
    match tryIsbn net row.isbn with
    | Except.error e => Except.error e
    | Except.ok (IsbnStep.done k, c2) => Except.ok (k, c1 ++ c2)
    | Except.ok (IsbnStep.next, c2) =>
      match searchPhase net row with
      | Except.error e => Except.error e
      | Except.ok (k, cs) => Except.ok (k, c1 ++ c2 ++ cs)

/-! ## The row loop -/

/-- Python `open_lib_key in used_keys`: string equality against each
element of the pre-built list (a non-string entry never equals a string). -/
def jsonMem (key : String) (usedKeys : List Json) : Bool :=
  usedKeys.any fun j =>
    match j with
    | Json.str s => s == key
    | _ => false

/-- `used_keys = [safe_get(record, 'value', 'item', 'value') for record in records]`,
built once before the loop. -/
def usedKeysOf (records : List Json) : Except Unit (List Json) :=
  records.mapM fun record =>
    safe_get record [Key.str "value", Key.str "item", Key.str "value"]

/-- One iteration of the `for row in data` loop (lines 207-232),
instrumented with the network calls made and the report row appended. -/
def processRow (net : Net) (session : Json) (did : String)
    (usedKeys : List Json) (timestamp : String) (row : Row) :
    Except Unit (List Event) :=
  if valid_read_count row.readCount = false then
    Except.ok [Event.report row "Excluded: Read count invalid"]
  else
    match retrieve_key net row with
    | Except.error e => Except.error e
    | Except.ok (key?, calls) =>
      let evs := calls.map Event.call
      match key? with
      | none =>
        Except.ok (evs ++ [Event.report row "Failure: No open library key found"])
      | some k =>
        if k = "" then
          Except.ok (evs ++ [Event.report row "Failure: No open library key found"])
        else if jsonMem k usedKeys then
          Except.ok (evs ++ [Event.report row "Skipped: Already had a record"])
        else
          match create_record net session did row k timestamp with
          | Except.error e => Except.error e
          | Except.ok cc =>
            Except.ok (evs ++ Event.report row "Success" :: cc.map Event.call)

/-- The whole batch: rows processed in order, `usedKeys` passed unchanged
to every row; an uncaught exception in one row aborts the run. -/
def processAll (net : Net) (session : Json) (did : String)
    (usedKeys : List Json) (timestamp : String) : List Row → Except Unit (List Event)
  | [] => Except.ok []
  | row :: rest =>
    match processRow net session did usedKeys timestamp row with
    | Except.error e => Except.error e
    | Except.ok evs =>
      match processAll net session did usedKeys timestamp rest with
      | Except.error e => Except.error e
      | Except.ok evs' => Except.ok (evs ++ evs')

/-- The network oracle in which every request suffers a transport failure:
`safe_request` catches the exception and returns `None` everywhere. -/
def netFail : Net :=
  { isbnResp := fun _ => none
    searchResp := fun _ => none
    createResp := fun _ => none }

/-- Whether an event is a report-row append. -/
def Event.isReport : Event → Bool
  | Event.report _ _ => true
  | _ => false

/-- Whether an event is a record-creation request. -/
def Event.isCreate : Event → Bool
  | Event.call (Call.createRecord _) => true
  | _ => false

/-- The columns of one report row (original fields plus Import Result),
in CSV order. -/
def rowFields (row : Row) (result : String) : List (String × String) :=
  [("Book Id", row.bookId), ("Title", row.title), ("Author", row.author),
   ("ISBN13", row.isbn13), ("ISBN", row.isbn), ("My Rating", row.myRating),
   ("My Review", row.myReview), ("Publisher", row.publisher),
   ("Year Published", row.yearPublished),
   ("Original Publication Year", row.origPubYear),
   ("Date Read", row.dateRead), ("Date Added", row.dateAdded),
   ("Read Count", row.readCount), ("Import Result", result)]

/-- Lines 238-241: `csv.DictWriter(file, fieldnames=results[0].keys())`
followed by writing header and rows.  On an empty result list,
`results[0]` raises `IndexError`. -/
def writeReport (results : List (Row × String)) :
    Except Unit (List String × List (List String)) :=
  match results with
  | [] => Except.error ()
  | first :: _ =>
    Except.ok ((rowFields first.1 first.2).map Prod.fst,
      results.map fun p => (rowFields p.1 p.2).map Prod.snd)

/-! ## Helper lemmas -/

theorem splitChar_ne_nil (c : Char) (l : List Char) : splitChar c l ≠ [] := by
  induction l with
  | nil => simp [splitChar]
  | cons x rest ih =>
    simp only [splitChar]
    split <;> simp

theorem mem_splitChar_not_sep (c : Char) (l : List Char) :
    ∀ seg ∈ splitChar c l, c ∉ seg := by
  induction l with
  | nil =>
    intro seg hseg
    simp [splitChar] at hseg
    simp [hseg]
  | cons x rest ih =>
    intro seg hseg
    simp only [splitChar] at hseg
    by_cases hx : x = c
    · rw [if_pos hx] at hseg
      rcases List.mem_cons.mp hseg with h | h
      · simp [h]
      · exact ih seg h
    · rw [if_neg hx] at hseg
      rcases hr : splitChar c rest with _ | ⟨hd, tl⟩
      · exact absurd hr (splitChar_ne_nil c rest)
      · rw [hr] at hseg
        simp only [List.headD_cons, List.tail_cons] at hseg
        rcases List.mem_cons.mp hseg with h | h
        · subst h
          intro hmem
          rcases List.mem_cons.mp hmem with h' | h'
          · exact hx h'.symm
          · exact ih hd (hr ▸ List.mem_cons_self hd tl) h'
        · exact ih seg (hr ▸ List.mem_cons_of_mem hd h)

theorem splitChar_eq_single (c : Char) (l : List Char) (h : c ∉ l) :
    splitChar c l = [l] := by
  induction l with
  | nil => rfl
  | cons x rest ih =>
    simp only [splitChar]
    have hx : ¬x = c := fun hxc => h (hxc ▸ List.mem_cons_self x rest)
    rw [if_neg hx, ih (fun hm => h (List.mem_cons_of_mem x hm))]
    rfl

theorem mem_stripWs (x : Char) (l : List Char) (h : x ∈ stripWs l) : x ∈ l := by
  unfold stripWs at h
  rw [List.mem_reverse] at h
  have h1 := (List.dropWhile_sublist (l := (l.dropWhile isPySpace).reverse)
    (p := isPySpace)).mem h
  rw [List.mem_reverse] at h1
  exact (List.dropWhile_sublist (l := l) (p := isPySpace)).mem h1

theorem pyListGet_err_iff (xs : List Json) (i : Int) :
    pyListGet xs i = Except.error () ↔ (xs.length : Int) + i < 0 := by
  unfold pyListGet
  split_ifs with h1 h2 h3 <;> simp <;> omega

/-! ## Claim C8 -/

/-- Claim C8 (amended): `safe_get` follows the key path and returns the
reached field, absent (null) on a missing key or an out-of-range index or
a scalar mid-path, but it is NOT total: it raises exactly when some
traversal step applies a string key to a sequence (`TypeError` from the
`key < len(obj)` comparison) or a negative integer index below `-len`
(`IndexError`), as characterised by `RaisesAt`. -/
theorem claim_C8_safe_get_raises_iff (j : Json) (path : List Key) :
    safe_get j path = Except.error () ↔ RaisesAt j path := by
  induction path generalizing j with
  | nil =>
    cases j <;> exact ⟨fun h => Except.noConfusion h, fun h => by cases h⟩
  | cons k rest ih =>
    cases j with
    | null =>
      constructor
      · intro h; exact Except.noConfusion h
      · intro h; cases h
    | bool b =>
      constructor
      · intro h; exact Except.noConfusion h
      · intro h; cases h
    | num n =>
      constructor
      · intro h; exact Except.noConfusion h
      · intro h; cases h
    | str s =>
      constructor
      · intro h; exact Except.noConfusion h
      · intro h; cases h
    | obj fs =>
      have hstep : safe_get (Json.obj fs) (k :: rest) =
          safe_get (dictGet fs k) rest := rfl
      rw [hstep, ih]
      constructor
      · exact fun h => RaisesAt.objStep fs k rest h
      · intro h
        cases h with
        | objStep _ _ _ h => exact h
    | arr xs =>
      cases k with
      | str s =>
        constructor
        · intro _; exact RaisesAt.strOnArr xs s rest
        · intro _; rfl
      | int i =>
        rcases hp : pyListGet xs i with e | o
        · have he : pyListGet xs i = Except.error () := by
            cases e; exact hp
          have hs : safe_get (Json.arr xs) (Key.int i :: rest) =
              Except.error () := by
            simp only [safe_get, hp]
          rw [hs]
          constructor
          · intro _
            exact RaisesAt.negIdx xs i rest ((pyListGet_err_iff xs i).mp he)
          · intro _; rfl
        · rcases o with _ | v
          · have hs : safe_get (Json.arr xs) (Key.int i :: rest) =
                Except.ok Json.null := by
              simp only [safe_get, hp]
            rw [hs]
            constructor
            · intro h; exact Except.noConfusion h
            · intro h
              cases h with
              | negIdx _ _ _ hneg =>
                rw [(pyListGet_err_iff xs i).mpr hneg] at hp
                exact Except.noConfusion hp
              | arrStep _ _ _ _ hv _ =>
                rw [hv] at hp
                simp at hp
          · have hs : safe_get (Json.arr xs) (Key.int i :: rest) =
                safe_get v rest := by
              simp only [safe_get, hp]
            rw [hs, ih]
            constructor
            · exact fun h => RaisesAt.arrStep xs i v rest hp h
            · intro h
              cases h with
              | negIdx _ _ _ hneg =>
                rw [(pyListGet_err_iff xs i).mpr hneg] at hp
                exact Except.noConfusion hp
              | arrStep _ _ v' _ hv hr =>
                rw [hv] at hp
                simp only [Except.ok.injEq, Option.some.injEq] at hp
                exact hp ▸ hr

/-- Claim C8 counterexample: `safe_get` is not total — on a list value
with a string key the Python comparison `key < len(obj)` raises
`TypeError`, modelled as `Except.error`. -/
theorem claim_C8_counterexample :
    safe_get (Json.arr []) [Key.str "a"] = Except.error () := rfl

/-! ## Claim C9 -/

/-- Claim C9: with zero processed rows, writing the report faults —
`csv.DictWriter(file, fieldnames=results[0].keys())` raises `IndexError`
on the empty result list instead of handling zero rows gracefully. -/
theorem claim_C9_empty_report_faults :
    writeReport [] = Except.error () := rfl

/-! ## Claims C3 and C4 -/

/-- Claim C3 (amended): for every row that reaches record construction,
the stored rating equals twice the integer My Rating field, floored at 1
(zero or negative becomes 1, never 0); in particular the source ratings
0,1,2,3,4,5 map to the stored ratings 1,2,4,6,8,10 respectively. -/
theorem claim_C3_rating_transform (row : Row) (key ts : String) (r rc : Int)
    (h1 : pyIntParse row.myRating = Except.ok r)
    (h2 : pyIntParse row.readCount = Except.ok rc) :
    (∃ p, recordPayload row key ts = Except.ok p ∧
      safe_get p [Key.str "rating", Key.str "value"] =
        Except.ok (Json.num (storedRating r)) ∧
      storedRating r = max (r * 2) 1) ∧
    [0, 1, 2, 3, 4, 5].map storedRating = ([1, 2, 4, 6, 8, 10] : List Int) := by
  constructor
  · refine ⟨mkRecord row key ts (storedRating r) (finishValue row ts) rc,
      ?_, ?_, ?_⟩
    · simp [recordPayload, h1, h2]
    · rfl
    · unfold storedRating
      split <;> omega
  · decide

/-- Claim C3 counterexample: the claimed list of stored ratings omits the
image of source rating 1 — the code maps 1 to 2 (doubling), and 2 does
not occur among the claimed values 1,4,6,8,10. -/
theorem claim_C3_counterexample :
    storedRating 1 = 2 ∧ (2 : Int) ∉ ([1, 4, 6, 8, 10] : List Int) := by
  constructor
  · decide
  · decide

/-- Sample row: resolves via search, rating 4, one read. -/
def rowA : Row :=
  { bookId := "B1", title := "Dune (Deluxe Edition)", author := "Frank Herbert",
    isbn13 := "", isbn := "", myRating := "4", myReview := "",
    publisher := "", yearPublished := "", origPubYear := "",
    dateRead := "2021/06/15", dateAdded := "", readCount := "1" }

/-- Claim C3 witness: the rating transform instantiated at a concrete row
with My Rating 4 (stored rating 8). -/
theorem claim_C3_witness :
    (∃ p, recordPayload rowA "OL999M" "TS" = Except.ok p ∧
      safe_get p [Key.str "rating", Key.str "value"] =
        Except.ok (Json.num (storedRating 4)) ∧
      storedRating 4 = max (4 * 2) 1) ∧
    [0, 1, 2, 3, 4, 5].map storedRating = ([1, 2, 4, 6, 8, 10] : List Int) :=
  claim_C3_rating_transform rowA "OL999M" "TS" 4 1 (by rfl) (by rfl)

/-- Claim C4 (amended): for every row that passes read-count validation,
the finish-timestamp list of the record holds `max(read_count, 0)` identical
copies of the finish value — a date-only Date Read (else Date Added, else
the current timestamp) rewritten from YYYY/MM/DD to
YYYY-MM-DDT00:00:00.000Z; when the parsed read count is at least 1 the
list length is exactly the read count, but validation itself does NOT
guarantee read_count ≥ 1 (strings such as "00" or "-1" pass). -/
theorem claim_C4_read_count_repetition (row : Row) (key ts : String)
    (r rc : Int)
    (hv : valid_read_count row.readCount = true)
    (h2 : pyIntParse row.readCount = Except.ok rc)
    (h1 : pyIntParse row.myRating = Except.ok r) :
    ∃ p, recordPayload row key ts = Except.ok p ∧
      safe_get p [Key.str "finishedAt"] =
        Except.ok (Json.arr (List.replicate rc.toNat
          (Json.str (finishValue row ts)))) ∧
      (row.dateRead ≠ "" →
        finishValue row ts =
          String.mk (replaceChar '/' '-' row.dateRead.data) ++
            "T00:00:00.000Z") ∧
      (1 ≤ rc →
        (List.replicate rc.toNat (Json.str (finishValue row ts))).length =
          rc.toNat ∧ (rc.toNat : Int) = rc) := by
  refine ⟨mkRecord row key ts (storedRating r) (finishValue row ts) rc,
    ?_, ?_, ?_, ?_⟩
  · simp [recordPayload, h1, h2]
  · rfl
  · intro hd
    simp [finishValue, hd]
  · intro hrc
    refine ⟨List.length_replicate _ _, ?_⟩
    omega

/-- Claim C4 counterexample: the read-count string "00" passes
`valid_read_count` yet parses to 0, so the parsed read count of a
validated row is not always ≥ 1 (the record then gets an empty
finish-timestamp list). -/
theorem claim_C4_counterexample :
    valid_read_count "00" = true ∧ pyIntParse "00" = Except.ok 0 ∧
      ¬(1 ≤ (0 : Int)) := by
  refine ⟨rfl, rfl, by omega⟩

/-- Sample row for the read-count repetition: read count 3,
Date Read 2020/05/01. -/
def rowC : Row :=
  { bookId := "B2", title := "T", author := "A",
    isbn13 := "", isbn := "", myRating := "3", myReview := "",
    publisher := "", yearPublished := "", origPubYear := "",
    dateRead := "2020/05/01", dateAdded := "", readCount := "3" }

/-- Claim C4 witness: read count "3" with finish date "2020/05/01"
produces exactly 3 identical entries of "2020-05-01T00:00:00.000Z". -/
theorem claim_C4_witness :
    (∃ p, recordPayload rowC "OL1M" "TS" = Except.ok p ∧
      safe_get p [Key.str "finishedAt"] =
        Except.ok (Json.arr (List.replicate 3
          (Json.str "2020-05-01T00:00:00.000Z"))) ∧
      (rowC.dateRead ≠ "" →
        "2020-05-01T00:00:00.000Z" =
          String.mk (replaceChar '/' '-' rowC.dateRead.data) ++
            "T00:00:00.000Z") ∧
      (1 ≤ (3 : Int) →
        (List.replicate 3 (Json.str "2020-05-01T00:00:00.000Z")).length =
          3 ∧ ((3 : Int).toNat : Int) = 3)) :=
  claim_C4_read_count_repetition rowC "OL1M" "TS" 3 3 (by rfl) (by rfl) (by rfl)

/-! ## Claim C5 -/

/-- Claim C5: a row whose Read Count field is "", "0", or not parseable
as an integer fails `valid_read_count`, gets the outcome
"Excluded: Read count invalid", and its processing emits no network call
(the only event is the report append). -/
theorem claim_C5_excluded_rows (net : Net) (session : Json) (did : String)
    (usedKeys : List Json) (ts : String) (row : Row) :
    (valid_read_count row.readCount = false ↔
      (row.readCount = "" ∨ row.readCount = "0" ∨
        pyIntParse row.readCount = Except.error ())) ∧
    (valid_read_count row.readCount = false →
      processRow net session did usedKeys ts row =
        Except.ok [Event.report row "Excluded: Read count invalid"] ∧
      ∀ c, Event.call c ∉
        [Event.report row "Excluded: Read count invalid"]) := by
  constructor
  · unfold valid_read_count
    split_ifs with h
    · simp only [eq_self_iff_true, true_iff]
      rcases h with h | h
      · exact Or.inr (Or.inl h)
      · exact Or.inl h
    · push_neg at h
      rcases hp : pyIntParse row.readCount with e | v
      · cases e
        simp [h.1, h.2, Except.isOk, Except.toBool]
      · simp [hp, h.1, h.2, Except.isOk, Except.toBool]
  · intro h
    refine ⟨by simp [processRow, h], by simp⟩

/-- Row with a non-numeric Read Count. -/
def rowX : Row :=
  { bookId := "B3", title := "T", author := "A",
    isbn13 := "", isbn := "", myRating := "4", myReview := "",
    publisher := "", yearPublished := "", origPubYear := "",
    dateRead := "", dateAdded := "", readCount := "abc" }

/-- Claim C5 witness: a row with Read Count "abc" is excluded with the
annotation and no network call. -/
theorem claim_C5_witness :
    processRow netFail Json.null "did" [] "TS" rowX =
      Except.ok [Event.report rowX "Excluded: Read count invalid"] ∧
    ∀ c, Event.call c ∉ [Event.report rowX "Excluded: Read count invalid"] :=
  (claim_C5_excluded_rows netFail Json.null "did" [] "TS" rowX).2 (by rfl)

/-! ## Claim C6 -/

/-- Claim C6 (amended): the search query is built by removing every
parenthetical/bracketed annotation from the title first and only then
splitting the result on every colon (not once): segment 0 (stripped) is
the query title and segment 1 (stripped) — the text between the first and
second colons, if any — is the subtitle, so the subtitle never contains a
colon and text after a second colon is discarded; when no colon survives
the removal (in particular when colons sit only inside parenthetical
text), no split happens and the subtitle is empty. -/
theorem claim_C6_title_cleaning (t : String) :
    titleParts t = splitChar ':' (removeBrackets t.data) ∧
    (':' ∉ removeBrackets t.data →
      titleParts t = [removeBrackets t.data] ∧ querySubtitle t = "") ∧
    ':' ∉ (querySubtitle t).data := by
  refine ⟨rfl, ?_, ?_⟩
  · intro h
    have h1 : titleParts t = [removeBrackets t.data] :=
      splitChar_eq_single ':' (removeBrackets t.data) h
    exact ⟨h1, by simp [querySubtitle, h1]⟩
  · rcases ht : titleParts t with _ | ⟨a, _ | ⟨b, tl⟩⟩
    · simp [querySubtitle, ht]
    · simp [querySubtitle, ht]
    · have hb : b ∈ splitChar ':' (removeBrackets t.data) := by
        have hmem : b ∈ titleParts t := by
          rw [ht]
          exact List.mem_cons_of_mem a (List.mem_cons_self b tl)
        exact hmem
      have hnb : ':' ∉ b := mem_splitChar_not_sep ':' (removeBrackets t.data) b hb
      have hq : querySubtitle t = String.mk (stripWs b) := by
        simp [querySubtitle, ht]
      rw [hq]
      intro hc
      exact hnb (mem_stripWs ':' b hc)

/-- Claim C6 counterexample: the split is not "once on the first colon" —
for the title "A: B: C" the subtitle computed by the code is "B" (the segment between
the first and second colons), not "B: C" (everything after the first
colon). -/
theorem claim_C6_counterexample :
    querySubtitle "A: B: C" = "B" ∧ ("B" : String) ≠ "B: C" := by
  constructor
  · rfl
  · decide

/-- Claim C6 witness: for the title "Dune (Vol: One)" the colon sits
inside the parenthetical, which is removed before the split, so the
title does not split and the subtitle is empty. -/
theorem claim_C6_witness :
    titleParts "Dune (Vol: One)" =
      splitChar ':' (removeBrackets "Dune (Vol: One)".data) ∧
    (titleParts "Dune (Vol: One)" = [removeBrackets "Dune (Vol: One)".data] ∧
      querySubtitle "Dune (Vol: One)" = "") ∧
    ':' ∉ (querySubtitle "Dune (Vol: One)").data := by
  obtain ⟨h1, h2, h3⟩ := claim_C6_title_cleaning "Dune (Vol: One)"
  exact ⟨h1, h2 (by decide), h3⟩

/-! ## Shape lemmas for the resolver and record creation -/

theorem tryIsbn_shape (net : Net) (raw : String) (st : IsbnStep)
    (cs : List Call) (h : tryIsbn net raw = Except.ok (st, cs)) :
    cs = [] ∨ cs = [Call.isbnLookup (stripIsbn raw)] := by
  simp only [tryIsbn] at h
  repeat' split at h
  all_goals simp_all

theorem searchPhase_shape (net : Net) (row : Row) (k : Option String)
    (cs : List Call) (h : searchPhase net row = Except.ok (k, cs)) :
    cs = [Call.search (strictParams row)] ∨
      cs = [Call.search (strictParams row), Call.search (looseParams row)] := by
  simp only [searchPhase] at h
  repeat' split at h
  all_goals simp_all

theorem retrieve_key_calls (net : Net) (row : Row)
    (res : Option String × List Call)
    (h : retrieve_key net row = Except.ok res) :
    ∀ p, Call.createRecord p ∉ res.2 := by
  simp only [retrieve_key] at h
  split at h
  · exact Except.noConfusion h
  · rename_i k1 c1 heq
    injection h with h'
    subst h'
    intro p
    rcases tryIsbn_shape net row.isbn13 _ _ heq with rfl | rfl <;> simp
  · rename_i c1 heq1
    split at h
    · exact Except.noConfusion h
    · rename_i k2 c2 heq2
      injection h with h'
      subst h'
      intro p
      rcases tryIsbn_shape net row.isbn13 _ _ heq1 with rfl | rfl <;>
        rcases tryIsbn_shape net row.isbn _ _ heq2 with rfl | rfl <;> simp
    · rename_i c2 heq2
      split at h
      · exact Except.noConfusion h
      · rename_i k3 cs3 heq3
        injection h with h'
        subst h'
        intro p
        rcases tryIsbn_shape net row.isbn13 _ _ heq1 with rfl | rfl <;>
          rcases tryIsbn_shape net row.isbn _ _ heq2 with rfl | rfl <;>
          rcases searchPhase_shape net row _ _ heq3 with rfl | rfl <;> simp

theorem create_record_shape (net : Net) (session : Json) (did : String)
    (row : Row) (key ts : String) (cc : List Call)
    (h : create_record net session did row key ts = Except.ok cc) :
    ∃ p, cc = [Call.createRecord p] := by
  simp only [create_record] at h
  repeat' split at h
  all_goals first
    | exact Except.noConfusion h
    | (injection h with h'; exact ⟨_, h'.symm⟩)

/-! ## processRow helpers -/

theorem processRow_skip (net : Net) (session : Json) (did : String)
    (usedKeys : List Json) (ts : String) (row : Row) (k : String)
    (rcalls : List Call)
    (hv : valid_read_count row.readCount = true)
    (hr : retrieve_key net row = Except.ok (some k, rcalls))
    (hk : k ≠ "")
    (hm : jsonMem k usedKeys = true) :
    processRow net session did usedKeys ts row =
      Except.ok (rcalls.map Event.call ++
        [Event.report row "Skipped: Already had a record"]) := by
  simp [processRow, hv, hr, hk, hm]

theorem processRow_success (net : Net) (session : Json) (did : String)
    (usedKeys : List Json) (ts : String) (row : Row) (k : String)
    (rcalls ccalls : List Call)
    (hv : valid_read_count row.readCount = true)
    (hr : retrieve_key net row = Except.ok (some k, rcalls))
    (hk : k ≠ "")
    (hm : jsonMem k usedKeys = false)
    (hc : create_record net session did row k ts = Except.ok ccalls) :
    processRow net session did usedKeys ts row =
      Except.ok (rcalls.map Event.call ++
        Event.report row "Success" :: ccalls.map Event.call) := by
  simp [processRow, hv, hr, hk, hm, hc]

theorem countP_call_report (calls : List Call) :
    (calls.map Event.call).countP Event.isReport = 0 := by
  rw [List.countP_eq_zero]
  intro a ha
  rw [List.mem_map] at ha
  obtain ⟨c, _, rfl⟩ := ha
  simp [Event.isReport]

theorem countP_call_create (calls : List Call)
    (hno : ∀ p, Call.createRecord p ∉ calls) :
    (calls.map Event.call).countP Event.isCreate = 0 := by
  rw [List.countP_eq_zero]
  intro a ha
  rw [List.mem_map] at ha
  obtain ⟨c, hc, rfl⟩ := ha
  cases c with
  | isbnLookup s => simp [Event.isCreate]
  | search ps => simp [Event.isCreate]
  | createRecord p => exact absurd hc (hno p)

/-! ## Claim C10 -/

/-- Claim C10: when the resolved key is novel, the row is annotated
"Success" and appended to the report before the record-creation request
is issued (the resolution calls contain no creation request, so the
report event precedes every creation call in the trace), and the
annotation stays "Success" whatever the creation response is —
`create_record` returns no status, only its calls. -/
theorem claim_C10_report_then_create (net : Net) (session : Json)
    (did : String) (usedKeys : List Json) (ts : String) (row : Row)
    (k : String) (rcalls ccalls : List Call)
    (hv : valid_read_count row.readCount = true)
    (hr : retrieve_key net row = Except.ok (some k, rcalls))
    (hk : k ≠ "")
    (hm : jsonMem k usedKeys = false)
    (hc : create_record net session did row k ts = Except.ok ccalls) :
    processRow net session did usedKeys ts row =
      Except.ok (rcalls.map Event.call ++
        Event.report row "Success" :: ccalls.map Event.call) ∧
    (∀ p, Call.createRecord p ∉ rcalls) :=
  ⟨processRow_success net session did usedKeys ts row k rcalls ccalls
      hv hr hk hm hc,
    retrieve_key_calls net row (some k, rcalls) hr⟩

/-! ## Claim C7 -/

theorem tryIsbn_netFail (raw : String) :
    tryIsbn netFail raw = Except.ok (IsbnStep.next,
      if stripIsbn raw = "" then [] else [Call.isbnLookup (stripIsbn raw)]) := by
  by_cases h : stripIsbn raw = "" <;> simp [tryIsbn, netFail, h]

theorem searchPhase_netFail (row : Row) :
    searchPhase netFail row = Except.ok (none,
      [Call.search (strictParams row), Call.search (looseParams row)]) := rfl

theorem retrieve_key_netFail (row : Row) :
    retrieve_key netFail row = Except.ok (none,
      (if stripIsbn row.isbn13 = "" then []
        else [Call.isbnLookup (stripIsbn row.isbn13)]) ++
      (if stripIsbn row.isbn = "" then []
        else [Call.isbnLookup (stripIsbn row.isbn)]) ++
      [Call.search (strictParams row), Call.search (looseParams row)]) := by
  simp only [retrieve_key, tryIsbn_netFail, searchPhase_netFail]

theorem processRow_netFail_ex (session : Json) (did : String)
    (usedKeys : List Json) (ts : String) (row : Row) :
    ∃ evs, processRow netFail session did usedKeys ts row = Except.ok evs ∧
      evs.countP Event.isReport = 1 ∧ evs.countP Event.isCreate = 0 := by
  by_cases hv : valid_read_count row.readCount = false
  · refine ⟨[Event.report row "Excluded: Read count invalid"], ?_, ?_, ?_⟩
    · simp [processRow, hv]
    · simp [List.countP_cons, Event.isReport]
    · simp [List.countP_cons, Event.isCreate]
  · have hv' : valid_read_count row.readCount = true := by
      cases hcase : valid_read_count row.readCount
      · exact absurd hcase hv
      · rfl
    refine ⟨((if stripIsbn row.isbn13 = "" then []
        else [Call.isbnLookup (stripIsbn row.isbn13)]) ++
      (if stripIsbn row.isbn = "" then []
        else [Call.isbnLookup (stripIsbn row.isbn)]) ++
      [Call.search (strictParams row),
        Call.search (looseParams row)]).map Event.call ++
      [Event.report row "Failure: No open library key found"], ?_, ?_, ?_⟩
    · simp [processRow, hv', retrieve_key_netFail row]
    · rw [List.countP_append, countP_call_report]
      simp [List.countP_cons, Event.isReport]
    · rw [List.countP_append]
      rw [countP_call_create]
      · simp [List.countP_cons, Event.isCreate]
      · exact retrieve_key_calls netFail row _ (retrieve_key_netFail row)

/-- Claim C7 (amended): transport failures are caught at the request
boundary and converted into absent results, never propagated: with every
catalog and record-store request failing at the transport layer, every
row of the batch still completes with exactly one report entry and no
record creation.  However, completion is NOT unconditional in the row's
field contents: a resolving, non-duplicate row whose My Rating is not an
integer raises an uncaught ValueError inside create_record (see the
counterexample). -/
theorem claim_C7_transport_failures_recovered (session : Json)
    (did : String) (usedKeys : List Json) (ts : String) (rows : List Row) :
    ∃ evs, processAll netFail session did usedKeys ts rows = Except.ok evs ∧
      evs.countP Event.isReport = rows.length ∧
      evs.countP Event.isCreate = 0 := by
  induction rows with
  | nil => exact ⟨[], rfl, rfl, rfl⟩
  | cons row rest ih =>
    obtain ⟨evs, he, hrep, hcr⟩ :=
      processRow_netFail_ex session did usedKeys ts row
    obtain ⟨evs', he', hrep', hcr'⟩ := ih
    refine ⟨evs ++ evs', ?_, ?_, ?_⟩
    · simp [processAll, he, he']
    · rw [List.countP_append, hrep, hrep']
      simp [Nat.add_comm]
    · rw [List.countP_append, hcr, hcr']

/-- A network oracle that resolves every ISBN lookup. -/
def netResolve : Net :=
  { isbnResp := fun _ => some (Json.obj [("key", Json.str "/books/OL1M")])
    searchResp := fun _ => none
    createResp := fun _ => none }

/-- A row whose My Rating field is not an integer. -/
def rowBadRating : Row :=
  { bookId := "B4", title := "T", author := "A",
    isbn13 := "1", isbn := "", myRating := "abc", myReview := "",
    publisher := "", yearPublished := "", origPubYear := "",
    dateRead := "", dateAdded := "", readCount := "1" }

/-- Claim C7 counterexample: a row with a valid read count that resolves
to a novel key but carries a non-integer My Rating makes
`int(row['My Rating'])` raise an uncaught ValueError inside
`create_record`, aborting the batch — row processing is not total in the
field contents of a row. -/
theorem claim_C7_counterexample :
    processRow netResolve Json.null "did" [] "TS" rowBadRating =
      Except.error () := rfl

/-! ## Claim C2 -/

/-- Claim C2: rows are checked only against the pre-run `used_keys` list,
which `processAll` passes unchanged to every row: a row resolving to a
key present in it is Skipped, a row resolving to a novel key leads to a
submission attempt (a record-creation request), and two rows of one run
resolving to the same novel key are BOTH submitted — the trace of the
two-row batch contains two record-creation requests. -/
theorem claim_C2_duplicate_check (net : Net) (session : Json) (did : String)
    (usedKeys : List Json) (ts : String) :
    (∀ (row : Row) (k : String) (rcalls : List Call),
      valid_read_count row.readCount = true →
      retrieve_key net row = Except.ok (some k, rcalls) →
      k ≠ "" →
      jsonMem k usedKeys = true →
      processRow net session did usedKeys ts row =
        Except.ok (rcalls.map Event.call ++
          [Event.report row "Skipped: Already had a record"])) ∧
    (∀ (row : Row) (k : String) (rcalls ccalls : List Call),
      valid_read_count row.readCount = true →
      retrieve_key net row = Except.ok (some k, rcalls) →
      k ≠ "" →
      jsonMem k usedKeys = false →
      create_record net session did row k ts = Except.ok ccalls →
      processRow net session did usedKeys ts row =
        Except.ok (rcalls.map Event.call ++
          Event.report row "Success" :: ccalls.map Event.call) ∧
      ∃ p, Call.createRecord p ∈ ccalls) ∧
    (∀ (row1 row2 : Row) (k : String) (rc1 rc2 cc1 cc2 : List Call),
      valid_read_count row1.readCount = true →
      valid_read_count row2.readCount = true →
      retrieve_key net row1 = Except.ok (some k, rc1) →
      retrieve_key net row2 = Except.ok (some k, rc2) →
      k ≠ "" →
      jsonMem k usedKeys = false →
      create_record net session did row1 k ts = Except.ok cc1 →
      create_record net session did row2 k ts = Except.ok cc2 →
      ∃ evs, processAll net session did usedKeys ts [row1, row2] =
          Except.ok evs ∧ evs.countP Event.isCreate = 2) := by
  refine ⟨?_, ?_, ?_⟩
  · intro row k rcalls hv hr hk hm
    exact processRow_skip net session did usedKeys ts row k rcalls hv hr hk hm
  · intro row k rcalls ccalls hv hr hk hm hc
    refine ⟨processRow_success net session did usedKeys ts row k rcalls ccalls
      hv hr hk hm hc, ?_⟩
    obtain ⟨p, rfl⟩ := create_record_shape net session did row k ts ccalls hc
    exact ⟨p, List.mem_cons_self _ _⟩
  · intro row1 row2 k rc1 rc2 cc1 cc2 hv1 hv2 hr1 hr2 hk hm hc1 hc2
    have h1 := processRow_success net session did usedKeys ts row1 k rc1 cc1
      hv1 hr1 hk hm hc1
    have h2 := processRow_success net session did usedKeys ts row2 k rc2 cc2
      hv2 hr2 hk hm hc2
    refine ⟨(rc1.map Event.call ++
        Event.report row1 "Success" :: cc1.map Event.call) ++
      ((rc2.map Event.call ++
        Event.report row2 "Success" :: cc2.map Event.call) ++ []), ?_, ?_⟩
    · simp [processAll, h1, h2]
    · obtain ⟨p1, rfl⟩ := create_record_shape net session did row1 k ts cc1 hc1
      obtain ⟨p2, rfl⟩ := create_record_shape net session did row2 k ts cc2 hc2
      have e1 : (rc1.map Event.call).countP Event.isCreate = 0 :=
        countP_call_create rc1 (retrieve_key_calls net row1 _ hr1)
      have e2 : (rc2.map Event.call).countP Event.isCreate = 0 :=
        countP_call_create rc2 (retrieve_key_calls net row2 _ hr2)
      rw [List.countP_append, List.countP_append, e1]
      simp [List.countP_cons, Event.isCreate, e2]

/-! ## Claim C1 -/

/-- Claim C1: the resolver tries ISBN-13, ISBN-10, strict search, loose
search in that order and short-circuits at the first success.  (a) When
the (quote-stripped) ISBN-13 is non-empty and its lookup succeeds with a
truthy string key, the resolver answers with the last path segment of that key
after the single ISBN request — no search request occurs.  (b) When both
ISBN attempts fall through, the strict search reports zero matches or no
response, and the loose search responds with a document whose nested
edition key is a string, resolution succeeds with the edition key taken
from the loose result. -/
theorem claim_C1_resolver_order (net : Net) (row : Row) :
    (∀ (r : Json) (ks : String),
      stripIsbn row.isbn13 ≠ "" →
      net.isbnResp (stripIsbn row.isbn13) = some r →
      r.truthy = true →
      pyGet r "key" = Except.ok (Json.str ks) →
      ks ≠ "" →
      retrieve_key net row =
        Except.ok (some (lastSeg ks),
          [Call.isbnLookup (stripIsbn row.isbn13)]) ∧
      ∀ ps, Call.search ps ∉ [Call.isbnLookup (stripIsbn row.isbn13)]) ∧
    (∀ (c1 c2 : List Call) (rl : Json) (ks : String),
      tryIsbn net row.isbn13 = Except.ok (IsbnStep.next, c1) →
      tryIsbn net row.isbn = Except.ok (IsbnStep.next, c2) →
      searchFailed (net.searchResp (strictParams row)) = Except.ok true →
      net.searchResp (looseParams row) = some rl →
      searchFailed (some rl) = Except.ok false →
      safe_get rl docsPath = Except.ok (Json.str ks) →
      retrieve_key net row =
        Except.ok (some (lastSeg ks),
          c1 ++ c2 ++ [Call.search (strictParams row),
                       Call.search (looseParams row)])) := by
  constructor
  · intro r ks hne hresp htr hget hks
    have h13 : tryIsbn net row.isbn13 =
        Except.ok (IsbnStep.done (some (lastSeg ks)),
          [Call.isbnLookup (stripIsbn row.isbn13)]) := by
      have hkt : (Json.str ks).truthy = true := by
        simp [Json.truthy, hks]
      simp [tryIsbn, hne, hresp, htr, hget, hkt]
    refine ⟨by simp [retrieve_key, h13], by simp⟩
  · intro c1 c2 rl ks h13 h10 hstrict hlresp hlok hkey
    have hphase : searchPhase net row =
        Except.ok (some (lastSeg ks),
          [Call.search (strictParams row), Call.search (looseParams row)]) := by
      simp [searchPhase, hstrict, hlresp, hlok, extractKey, hkey]
    simp [retrieve_key, h13, h10, hphase]

/-! ## Concrete scenarios for the witnesses -/

/-- Row carrying a spreadsheet-quoted ISBN-13. -/
def rowIsbn : Row :=
  { bookId := "B5", title := "T", author := "A",
    isbn13 := "=\"9780441013593\"", isbn := "", myRating := "5",
    myReview := "", publisher := "", yearPublished := "", origPubYear := "",
    dateRead := "", dateAdded := "", readCount := "1" }

/-- Oracle answering the ISBN lookup for that ISBN with an edition key. -/
def netIsbn : Net :=
  { isbnResp := fun s =>
      if s = "9780441013593" then
        some (Json.obj [("key", Json.str "/books/OL123M")])
      else none
    searchResp := fun _ => none
    createResp := fun _ => none }

/-- Row with no ISBNs that must resolve through search. -/
def rowS : Row :=
  { bookId := "B6", title := "Dune (Deluxe Edition)",
    author := "Frank Herbert", isbn13 := "", isbn := "", myRating := "4",
    myReview := "", publisher := "", yearPublished := "", origPubYear := "",
    dateRead := "2021/06/15", dateAdded := "", readCount := "1" }

/-- A search response with one matching document and a nested
edition key. -/
def searchDoc : Json :=
  Json.obj [("num_found", Json.num 1),
    ("docs", Json.arr [Json.obj [("editions", Json.obj [("docs",
      Json.arr [Json.obj [("key", Json.str "/books/OL999M")]])])]])]

/-- Oracle with zero results on the strict query and one match on the
loose query; record creation fails at the transport layer. -/
def netSearch : Net :=
  { isbnResp := fun _ => none
    searchResp := fun ps => if ps = looseParams rowS then some searchDoc else none
    createResp := fun _ => none }

/-- A session object holding a bearer token. -/
def sessionA : Json := Json.obj [("accessJwt", Json.str "tok")]

/-- The record-creation payload the loop submits for `rowS`. -/
def payloadS : Json :=
  Json.obj [("repo", Json.str "did:plc:x"),
    ("collection", Json.str "my.skylights.rel"),
    ("record", mkRecord rowS "OL999M" "TS" (storedRating 4)
      (finishValue rowS "TS") 1)]

/-- Claim C1 witness: (a) the quoted ISBN-13 lookup resolves with a single
ISBN request and no search; (b) strict search empty but loose search
matching resolves to the edition key of the loose result. -/
theorem claim_C1_witness :
    (retrieve_key netIsbn rowIsbn =
        Except.ok (some (lastSeg "/books/OL123M"),
          [Call.isbnLookup (stripIsbn rowIsbn.isbn13)]) ∧
      ∀ ps, Call.search ps ∉ [Call.isbnLookup (stripIsbn rowIsbn.isbn13)]) ∧
    retrieve_key netSearch rowS =
      Except.ok (some (lastSeg "/books/OL999M"),
        [] ++ [] ++ [Call.search (strictParams rowS),
                     Call.search (looseParams rowS)]) :=
  ⟨(claim_C1_resolver_order netIsbn rowIsbn).1
      (Json.obj [("key", Json.str "/books/OL123M")]) "/books/OL123M"
      (by decide) rfl rfl rfl (by decide),
    (claim_C1_resolver_order netSearch rowS).2 [] [] searchDoc
      "/books/OL999M" rfl rfl rfl rfl rfl rfl⟩

/-- Claim C2 witness: with `used_keys = [OL999M]` the row resolving to
OL999M is Skipped; with `used_keys = [OL123M]` the same row is a
submission attempt; and two copies of that row in one batch yield two
record-creation requests. -/
theorem claim_C2_witness :
    processRow netSearch sessionA "did:plc:x" [Json.str "OL999M"] "TS" rowS =
      Except.ok ([Call.search (strictParams rowS),
          Call.search (looseParams rowS)].map Event.call ++
        [Event.report rowS "Skipped: Already had a record"]) ∧
    (processRow netSearch sessionA "did:plc:x" [Json.str "OL123M"] "TS" rowS =
        Except.ok ([Call.search (strictParams rowS),
            Call.search (looseParams rowS)].map Event.call ++
          Event.report rowS "Success" ::
            [Call.createRecord payloadS].map Event.call) ∧
      ∃ p, Call.createRecord p ∈ [Call.createRecord payloadS]) ∧
    (∃ evs, processAll netSearch sessionA "did:plc:x" [Json.str "OL123M"]
        "TS" [rowS, rowS] = Except.ok evs ∧
      evs.countP Event.isCreate = 2) :=
  ⟨(claim_C2_duplicate_check netSearch sessionA "did:plc:x"
      [Json.str "OL999M"] "TS").1 rowS "OL999M"
      [Call.search (strictParams rowS), Call.search (looseParams rowS)]
      rfl rfl (by decide) rfl,
    (claim_C2_duplicate_check netSearch sessionA "did:plc:x"
      [Json.str "OL123M"] "TS").2.1 rowS "OL999M"
      [Call.search (strictParams rowS), Call.search (looseParams rowS)]
      [Call.createRecord payloadS] rfl rfl (by decide) rfl rfl,
    (claim_C2_duplicate_check netSearch sessionA "did:plc:x"
      [Json.str "OL123M"] "TS").2.2 rowS rowS "OL999M"
      [Call.search (strictParams rowS), Call.search (looseParams rowS)]
      [Call.search (strictParams rowS), Call.search (looseParams rowS)]
      [Call.createRecord payloadS] [Call.createRecord payloadS]
      rfl rfl rfl rfl (by decide) rfl rfl rfl⟩

/-- Claim C10 witness: with an empty used-key set and a create request
that fails at the transport layer, the row is still annotated "Success",
the report event precedes the creation request, and no creation request
occurs during resolution. -/
theorem claim_C10_witness :
    processRow netSearch sessionA "did:plc:x" [] "TS" rowS =
      Except.ok ([Call.search (strictParams rowS),
          Call.search (looseParams rowS)].map Event.call ++
        Event.report rowS "Success" ::
          [Call.createRecord payloadS].map Event.call) ∧
    (∀ p, Call.createRecord p ∉
      [Call.search (strictParams rowS), Call.search (looseParams rowS)]) :=
  claim_C10_report_then_create netSearch sessionA "did:plc:x" [] "TS" rowS
    "OL999M"
    [Call.search (strictParams rowS), Call.search (looseParams rowS)]
    [Call.createRecord payloadS] rfl rfl (by decide) rfl rfl
